import Mathlib

/-!
# Verification of the `dbcrossbar` type-translation engine

A shallow embedding of the BigQuery native-type mapper
(`src/dbcrossbarlib/src/drivers/bigquery_shared/data_type.rs`), the
PostgreSQL `count` helper (`src/dbcrossbarlib/src/drivers/postgres/count.rs`)
and the Redshift `write_local_data` helper
(`src/dbcrossbarlib/src/drivers/redshift/write_local_data.rs`), together with
theorems about the translation laws the documentation states.
-/

namespace DbCrossbar

/-- Error messages (`format_err!` produces a message string). -/
abbrev ErrorMsg : Type := String

/-- Alias for `Bool`, usable inside namespaces that declare a `Bool`
constructor of their own. -/
abbrev BoolT : Type := Bool

/-- Spatial reference identifier (`Srid` in `schema.rs`): an integer code. -/
structure Srid where
  code : Nat
deriving DecidableEq, Repr

/-- `Srid::wgs84()`: the WGS84 spatial reference system, code 4326. -/
def Srid.wgs84 : Srid := ⟨4326⟩

/-- The portable `DataType` (crate `schema`), with exactly the constructors
enumerated by the exhaustive `match` in `BqNonArrayDataType::for_data_type`. -/
inductive DataType : Type where
  | Array (elem : DataType)
  | Bool
  | Date
  | Decimal
  | Float32
  | Float64
  | GeoJson (srid : Srid)
  | Int16
  | Int32
  | Int64
  | Json
  | Other (name : String)
  | Text
  | TimestampWithoutTimeZone
  | TimestampWithTimeZone
  | Uuid
deriving DecidableEq, Repr

/-- `Usage`: how we intend to use a BigQuery type. -/
inductive Usage : Type where
  | CsvLoad
  | FinalTable
deriving DecidableEq, Repr

mutual

/-- `BqDataType`: a BigQuery data type.  An array type may not contain another
directly nested array inside it, which the type itself enforces: the element
of `Array` is a `BqNonArrayDataType`. -/
inductive BqDataType : Type where
  | Array (t : BqNonArrayDataType)
  | NonArray (t : BqNonArrayDataType)

/-- `BqNonArrayDataType`: any BigQuery type except `ARRAY`. -/
inductive BqNonArrayDataType : Type where
  | Bool
  | Bytes
  | Date
  | Datetime
  | Float64
  | Geography
  | Int64
  | Numeric
  | String
  | Struct (fields : List BqStructField)
  | Time
  | Timestamp

/-- `BqStructField`: a field of a `STRUCT`, with an optional name. -/
inductive BqStructField : Type where
  | mk (name : Option String) (ty : BqDataType)

end

/-- Accessor for the optional field name of a `BqStructField`. -/
def BqStructField.name : BqStructField → Option String
  | ⟨n, _⟩ => n

/-- Accessor for the type of a `BqStructField`. -/
def BqStructField.ty : BqStructField → BqDataType
  | ⟨_, t⟩ => t

/-- `BqNonArrayDataType::for_data_type`: map a portable `DataType` to a
BigQuery non-array type.  A (nested) array is wrapped in a single-anonymous-
field `Struct`, because BigQuery needs `ARRAY<STRUCT<ARRAY<...>>>` instead of
`ARRAY<ARRAY<...>>`; in `CsvLoad` usage a nested array is an error. -/
def BqNonArrayDataType.for_data_type :
    DataType → Usage → Except ErrorMsg BqNonArrayDataType
  | DataType.Array _, Usage.CsvLoad =>
    Except.error "should never encounter nested arrays in CSV mode"
  | DataType.Array nested, usage =>
    match BqNonArrayDataType.for_data_type nested usage with
    | Except.error e => Except.error e
    | Except.ok bq_nested =>
      Except.ok (BqNonArrayDataType.Struct
        [BqStructField.mk none (BqDataType.Array bq_nested)])
  | DataType.Bool, _ => Except.ok BqNonArrayDataType.Bool
  | DataType.Date, _ => Except.ok BqNonArrayDataType.Date
  | DataType.Decimal, _ => Except.ok BqNonArrayDataType.Numeric
  | DataType.Float32, _ => Except.ok BqNonArrayDataType.Float64
  | DataType.Float64, _ => Except.ok BqNonArrayDataType.Float64
  | DataType.GeoJson srid, _ =>
    if srid = Srid.wgs84 then Except.ok BqNonArrayDataType.Geography
    else Except.ok BqNonArrayDataType.String
  | DataType.Int16, _ => Except.ok BqNonArrayDataType.Int64
  | DataType.Int32, _ => Except.ok BqNonArrayDataType.Int64
  | DataType.Int64, _ => Except.ok BqNonArrayDataType.Int64
  | DataType.Json, _ => Except.ok BqNonArrayDataType.String
  | DataType.Other _, _ => Except.ok BqNonArrayDataType.String
  | DataType.Text, _ => Except.ok BqNonArrayDataType.String
  | DataType.TimestampWithoutTimeZone, _ => Except.ok BqNonArrayDataType.Datetime
  | DataType.TimestampWithTimeZone, _ => Except.ok BqNonArrayDataType.Timestamp
  | DataType.Uuid, _ => Except.ok BqNonArrayDataType.String

/-- `BqDataType::for_data_type`: map a portable `DataType` and intended usage
to a BigQuery data type.  Top-level arrays become `STRING` when loading from
CSV; arrays of JSON are rejected; other arrays map their element through
`BqNonArrayDataType.for_data_type`. -/
def BqDataType.for_data_type (data_type : DataType) (usage : Usage) :
    Except String BqDataType :=
  match data_type, usage with
  | DataType.Array _, Usage.CsvLoad =>
    Except.ok (BqDataType.NonArray BqNonArrayDataType.String)
  | DataType.Array nested, usage =>
    match nested with
    | DataType.Json =>
      Except.error "cannot represent arrays of JSON in BigQuery yet"
    | _ =>
      match BqNonArrayDataType.for_data_type nested usage with
      | Except.error e => Except.error e
      | Except.ok bq_nested => Except.ok (BqDataType.Array bq_nested)
  | other, usage =>
    match BqNonArrayDataType.for_data_type other usage with
    | Except.error e => Except.error e
    | Except.ok bq_other => Except.ok (BqDataType.NonArray bq_other)

/-- `BqNonArrayDataType::to_data_type`: convert a BigQuery non-array type back
to a portable `DataType`.  `Bytes` and `Time` cannot be converted (yet). -/
def BqNonArrayDataType.to_data_type :
    BqNonArrayDataType → Except ErrorMsg DataType
  | BqNonArrayDataType.Bool => Except.ok DataType.Bool
  | BqNonArrayDataType.Date => Except.ok DataType.Date
  | BqNonArrayDataType.Numeric => Except.ok DataType.Decimal
  | BqNonArrayDataType.Float64 => Except.ok DataType.Float64
  | BqNonArrayDataType.Geography => Except.ok (DataType.GeoJson Srid.wgs84)
  | BqNonArrayDataType.Int64 => Except.ok DataType.Int64
  | BqNonArrayDataType.String => Except.ok DataType.Text
  | BqNonArrayDataType.Datetime => Except.ok DataType.TimestampWithoutTimeZone
  | BqNonArrayDataType.Struct _ => Except.ok DataType.Json
  | BqNonArrayDataType.Timestamp => Except.ok DataType.TimestampWithTimeZone
  | BqNonArrayDataType.Bytes =>
    Except.error "cannot convert BYTES to portable type (yet)"
  | BqNonArrayDataType.Time =>
    Except.error "cannot convert TIME to portable type (yet)"

/-- `BqDataType::to_data_type`: convert a BigQuery data type back to a
portable `DataType`.  An array of structs collapses to `Json`. -/
def BqDataType.to_data_type : BqDataType → Except String DataType
  | BqDataType.Array (BqNonArrayDataType.Struct _) => Except.ok DataType.Json
  | BqDataType.Array ty =>
    match ty.to_data_type with
    | Except.error e => Except.error e
    | Except.ok portable => Except.ok (DataType.Array portable)
  | BqDataType.NonArray ty => ty.to_data_type

/-- `HashSet::insert` on a set modelled as a list of strings: returns the
updated set and whether the value was newly inserted. -/
def hashSetInsert (s : List String) (x : String) : List String × Bool :=
  if s.contains x then (s, false) else (x :: s, true)

mutual

/-- `BqDataType::is_json_safe`: can this type be safely represented as a JSON
value? -/
def BqDataType.is_json_safe : BqDataType → Bool
  | BqDataType.Array ty => ty.is_json_safe
  | BqDataType.NonArray ty => ty.is_json_safe

/-- `BqNonArrayDataType::is_json_safe`: a struct is checked field by field by
the loop in the source; every other type is json-safe. -/
def BqNonArrayDataType.is_json_safe : BqNonArrayDataType → BoolT
  | BqNonArrayDataType.Struct fields => structFieldsLoop fields
  | _ => true

/-- The `for field in fields` loop inside `BqNonArrayDataType::is_json_safe`.
Note: in the source, `let mut names = HashSet::new();` appears INSIDE the
loop body, so each iteration starts from a fresh empty set. -/
def structFieldsLoop : List BqStructField → Bool
  | [] => true
  | BqStructField.mk fname fty :: rest =>
    let names : List String := []
    match fname with
    | some nm =>
      if !(hashSetInsert names nm).2 || !fty.is_json_safe then false
      else structFieldsLoop rest
    | none => false

end

example : BqNonArrayDataType.is_json_safe
    (BqNonArrayDataType.Struct
      [BqStructField.mk (some "a") (BqDataType.NonArray BqNonArrayDataType.Bool),
       BqStructField.mk (some "a") (BqDataType.NonArray BqNonArrayDataType.Bool)])
    = true := rfl

/-- The property the source comment (and the spec) state for struct
json-safety: every field is named, the names are pairwise distinct, and every
field type is json-safe. -/
def specStructJsonSafe (fields : List BqStructField) : Bool :=
  fields.all (fun f => f.name.isSome && f.ty.is_json_safe) &&
    (fields.filterMap (fun f => f.name)).Nodup

mutual

/-- `impl fmt::Display for BqDataType`: `ARRAY<elem>` or the bare non-array
form. -/
def BqDataType.toSqlString : BqDataType → String
  | BqDataType.Array element_type => "ARRAY<" ++ element_type.toSqlString ++ ">"
  | BqDataType.NonArray ty => ty.toSqlString

/-- `impl fmt::Display for BqNonArrayDataType`: upper-case SQL keywords;
`STRUCT<...>` joins its fields with `Separator::new(",")`, which prints
nothing before the first field and `","` before each later one. -/
def BqNonArrayDataType.toSqlString : BqNonArrayDataType → String
  | BqNonArrayDataType.Bool => "BOOL"
  | BqNonArrayDataType.Bytes => "BYTES"
  | BqNonArrayDataType.Date => "DATE"
  | BqNonArrayDataType.Datetime => "DATETIME"
  | BqNonArrayDataType.Float64 => "FLOAT64"
  | BqNonArrayDataType.Geography => "GEOGRAPHY"
  | BqNonArrayDataType.Int64 => "INT64"
  | BqNonArrayDataType.Numeric => "NUMERIC"
  | BqNonArrayDataType.String => "STRING"
  | BqNonArrayDataType.Struct fields =>
    "STRUCT<" ++ structFieldsToSqlString fields ++ ">"
  | BqNonArrayDataType.Time => "TIME"
  | BqNonArrayDataType.Timestamp => "TIMESTAMP"

/-- `impl fmt::Display for BqStructField`: the optional name, a space, then
the field type. -/
def BqStructField.toSqlString : BqStructField → String
  | BqStructField.mk (some nm) ty => nm ++ " " ++ ty.toSqlString
  | BqStructField.mk none ty => ty.toSqlString

/-- The field-printing loop of the `Struct` arm, with `Separator`
semantics. -/
def structFieldsToSqlString : List BqStructField → String
  | [] => ""
  | [f] => f.toSqlString
  | f :: rest => f.toSqlString ++ "," ++ structFieldsToSqlString rest

end

/-- A raw (unconstrained) BigQuery type syntax tree, in which `ARRAY` may
nest arbitrarily.  The emitted `BqDataType` ASTs are checked against this to
state that they never contain an `ARRAY` directly inside an `ARRAY`. -/
inductive RawBqType : Type where
  | Array (t : RawBqType)
  | Scalar (keyword : String)
  | Struct (fields : List (Option String × RawBqType))
deriving Repr

mutual

/-- Erase a `BqDataType` to the unconstrained syntax tree. -/
def BqDataType.toRaw : BqDataType → RawBqType
  | BqDataType.Array t => RawBqType.Array t.toRaw
  | BqDataType.NonArray t => t.toRaw

/-- Erase a `BqNonArrayDataType` to the unconstrained syntax tree. -/
def BqNonArrayDataType.toRaw : BqNonArrayDataType → RawBqType
  | BqNonArrayDataType.Struct fields => RawBqType.Struct (fieldsToRaw fields)
  | BqNonArrayDataType.Bool => RawBqType.Scalar "BOOL"
  | BqNonArrayDataType.Bytes => RawBqType.Scalar "BYTES"
  | BqNonArrayDataType.Date => RawBqType.Scalar "DATE"
  | BqNonArrayDataType.Datetime => RawBqType.Scalar "DATETIME"
  | BqNonArrayDataType.Float64 => RawBqType.Scalar "FLOAT64"
  | BqNonArrayDataType.Geography => RawBqType.Scalar "GEOGRAPHY"
  | BqNonArrayDataType.Int64 => RawBqType.Scalar "INT64"
  | BqNonArrayDataType.Numeric => RawBqType.Scalar "NUMERIC"
  | BqNonArrayDataType.String => RawBqType.Scalar "STRING"
  | BqNonArrayDataType.Time => RawBqType.Scalar "TIME"
  | BqNonArrayDataType.Timestamp => RawBqType.Scalar "TIMESTAMP"

/-- Erase a struct field list to the unconstrained syntax tree. -/
def fieldsToRaw : List BqStructField → List (Option String × RawBqType)
  | [] => []
  | BqStructField.mk nm ty :: rest => (nm, ty.toRaw) :: fieldsToRaw rest

end

mutual

/-- No `ARRAY` directly nested inside another `ARRAY` anywhere in a raw
BigQuery syntax tree. -/
def RawBqType.noArrayInArray : RawBqType → Bool
  | RawBqType.Array (RawBqType.Array _) => false
  | RawBqType.Array t => t.noArrayInArray
  | RawBqType.Scalar _ => true
  | RawBqType.Struct fields => rawFieldsNoArrayInArray fields

/-- The same check over a struct's fields. -/
def rawFieldsNoArrayInArray : List (Option String × RawBqType) → Bool
  | [] => true
  | (_, t) :: rest => t.noArrayInArray && rawFieldsNoArrayInArray rest

end

/-- Does a raw syntax tree have `ARRAY` as its outermost constructor? -/
def RawBqType.isArrayHeaded : RawBqType → Bool
  | RawBqType.Array _ => true
  | _ => false

/-- The scalar portable types whose BigQuery `FinalTable` mapping is inverted
exactly by `to_data_type` (the safely round-trippable scalars; documented
coercions such as `Uuid → Text`, `Int16/Int32 → Int64`, `Float32 → Float64`,
`Json → Text` and non-WGS84 `GeoJson → Text` are excluded). -/
def scalarRoundTrippable : DataType → Bool
  | DataType.Bool => true
  | DataType.Date => true
  | DataType.Decimal => true
  | DataType.Float64 => true
  | DataType.GeoJson srid => srid = Srid.wgs84
  | DataType.Int64 => true
  | DataType.Text => true
  | DataType.TimestampWithoutTimeZone => true
  | DataType.TimestampWithTimeZone => true
  | _ => false

/-- The safely round-trippable subset of portable types for BigQuery: the
round-trippable scalars and arrays of them (nested arrays are excluded, since
their struct wrapping collapses to `Json` on the way back). -/
def safelyRoundTrippable : DataType → Bool
  | DataType.Array elem => scalarRoundTrippable elem
  | t => scalarRoundTrippable t

/-- Modelled from the spec: the native type of the backend that itself
produced `Other(name)` (for example the PostgreSQL driver, whose type mapper
is not among the provided sources).  Per the spec, `Other(name)` "is a
pass-through escape: round-trip through the same backend preserves it", so
the origin backend keeps the native name verbatim. -/
inductive OriginNativeType : Type where
  | Named (name : String)
deriving DecidableEq, Repr

/-- Modelled from the spec: the origin backend's `from_portable` on
`Other(name)` keeps the native type name as a pass-through. -/
def OriginNativeType.for_other (name : String) : OriginNativeType :=
  OriginNativeType.Named name

/-- Modelled from the spec: the origin backend's `to_portable` maps its
pass-through native type back to `Other(name)`. -/
def OriginNativeType.to_data_type : OriginNativeType → DataType
  | OriginNativeType.Named name => DataType.Other name

/-- The argument sets a driver helper receives
(`SharedArguments`, `SourceArguments`, `DestinationArguments`). -/
inductive ArgSet : Type where
  | shared
  | source
  | dest
deriving DecidableEq, Repr

/-- An event on a driver helper's success path: either verifying one of the
argument sets (`args.verify(Driver::features())`) or performing I/O. -/
inductive HelperEvent : Type where
  | verify (a : ArgSet)
  | io (op : String)
deriving DecidableEq, Repr

/-- Is this event an I/O operation? -/
def HelperEvent.isIo : HelperEvent → Bool
  | HelperEvent.io _ => true
  | _ => false

/-- The argument sets `count_helper` (postgres/count.rs) takes in `Unverified`
state: `shared_args` and `source_args`. -/
def countHelperArgSets : List ArgSet := [ArgSet.shared, ArgSet.source]

/-- The success-path event trace of `count_helper` (postgres/count.rs), in
source order: verify `shared_args` (line 14), verify `source_args` (line 15),
then connect (line 35), prepare the statement (line 36) and run the query
(lines 37-42). -/
def countHelperTrace : List HelperEvent :=
  [ HelperEvent.verify ArgSet.shared,
    HelperEvent.verify ArgSet.source,
    HelperEvent.io "connect",
    HelperEvent.io "prepare",
    HelperEvent.io "query" ]

/-- The argument sets `write_local_data_helper` (redshift/write_local_data.rs)
takes in `Unverified` state: `shared_args` and `dest_args`. -/
def redshiftWriteLocalDataArgSets : List ArgSet := [ArgSet.shared, ArgSet.dest]

/-- The success-path event trace of `write_local_data_helper`
(redshift/write_local_data.rs), in source order: verify a clone of
`shared_args` (line 17), upload the CSV streams to the temporary `s3://`
location (lines 24-26), wait for the uploads to finish (lines 33-35), then
call `dest.write_remote_data` (lines 39-46) — to which `dest_args` is passed
still in `Unverified` state; no `dest_args.verify(...)` call occurs in this
function. -/
def redshiftWriteLocalDataTrace : List HelperEvent :=
  [ HelperEvent.verify ArgSet.shared,
    HelperEvent.io "s3_write_local_data",
    HelperEvent.io "consume_with_parallelism",
    HelperEvent.io "write_remote_data" ]

/-- An argument set is verified before any I/O begins: a `verify` event for
it occurs in the prefix of the trace that precedes the first I/O event. -/
def verifiedBeforeAnyIo (trace : List HelperEvent) (a : ArgSet) : Bool :=
  (trace.takeWhile (fun e => !e.isIo)).contains (HelperEvent.verify a)

/-- The tail of `count_helper` (postgres/count.rs, lines 43-51): given the
rows returned by the count query (each row's `"count"` column an `i64`,
modelled as an integer), demand exactly one row, then convert its count via
`cast::usize`, which fails exactly on negative values. -/
def count_helper_result (rows : List Int) : Except ErrorMsg Nat :=
  if rows.length ≠ 1 then
    Except.error "expected 1 row of count output"
  else
    match rows with
    | count :: _ =>
      if count < 0 then Except.error "count out of range"
      else Except.ok count.toNat
    | [] => Except.error "expected 1 row of count output"

/-- The erasure of a `BqNonArrayDataType` is never `ARRAY`-headed. -/
theorem bqNonArray_toRaw_not_array_headed (t : BqNonArrayDataType) :
    t.toRaw.isArrayHeaded = false := by
  cases t <;> rfl

/-- `noArrayInArray` on an `ARRAY` whose element is not itself `ARRAY`-headed
reduces to the check on the element. -/
theorem noArrayInArray_array_of_not_headed (r : RawBqType)
    (h : r.isArrayHeaded = false) :
    (RawBqType.Array r).noArrayInArray = r.noArrayInArray := by
  cases r with
  | Array t => simp [RawBqType.isArrayHeaded] at h
  | Scalar s => rfl
  | Struct fs => rfl

mutual

/-- Every value of `BqDataType` erases to a raw tree with no `ARRAY` directly
inside an `ARRAY`. -/
theorem bqDataType_toRaw_noArrayInArray :
    ∀ d : BqDataType, d.toRaw.noArrayInArray = true
  | BqDataType.Array t => by
    have hd : (BqDataType.Array t).toRaw = RawBqType.Array t.toRaw := rfl
    rw [hd,
      noArrayInArray_array_of_not_headed _ (bqNonArray_toRaw_not_array_headed t)]
    exact bqNonArray_toRaw_noArrayInArray t
  | BqDataType.NonArray t => bqNonArray_toRaw_noArrayInArray t

/-- Every value of `BqNonArrayDataType` erases to a raw tree with no `ARRAY`
directly inside an `ARRAY`. -/
theorem bqNonArray_toRaw_noArrayInArray :
    ∀ t : BqNonArrayDataType, t.toRaw.noArrayInArray = true
  | BqNonArrayDataType.Struct fields => by
    have hd : (BqNonArrayDataType.Struct fields).toRaw
        = RawBqType.Struct (fieldsToRaw fields) := rfl
    rw [hd]
    exact structFields_toRaw_noArrayInArray fields
  | BqNonArrayDataType.Bool => rfl
  | BqNonArrayDataType.Bytes => rfl
  | BqNonArrayDataType.Date => rfl
  | BqNonArrayDataType.Datetime => rfl
  | BqNonArrayDataType.Float64 => rfl
  | BqNonArrayDataType.Geography => rfl
  | BqNonArrayDataType.Int64 => rfl
  | BqNonArrayDataType.Numeric => rfl
  | BqNonArrayDataType.String => rfl
  | BqNonArrayDataType.Time => rfl
  | BqNonArrayDataType.Timestamp => rfl

/-- Every struct field list erases to raw fields with no `ARRAY` directly
inside an `ARRAY`. -/
theorem structFields_toRaw_noArrayInArray :
    ∀ fs : List BqStructField,
      (RawBqType.Struct (fieldsToRaw fs)).noArrayInArray = true
  | [] => rfl
  | BqStructField.mk nm ty :: rest => by
    have hd : (RawBqType.Struct (fieldsToRaw (BqStructField.mk nm ty :: rest))).noArrayInArray
        = (ty.toRaw.noArrayInArray && rawFieldsNoArrayInArray (fieldsToRaw rest)) := rfl
    have hr : (RawBqType.Struct (fieldsToRaw rest)).noArrayInArray
        = rawFieldsNoArrayInArray (fieldsToRaw rest) := rfl
    rw [hd, bqDataType_toRaw_noArrayInArray ty, ← hr,
      structFields_toRaw_noArrayInArray rest]
    rfl

end

/-- C1 (code_bug evidence): on the struct whose two fields are both named
`"a"` and both of json-safe type `BOOL`, the source's
`BqNonArrayDataType::is_json_safe` returns `true`, although the property its
own comment and the spec state (named fields, pairwise-distinct names,
json-safe children) is `false` there: the `names` set is re-created on every
loop iteration, so the duplicate-name check can never fire. -/
theorem is_json_safe_duplicate_names_divergence :
    BqNonArrayDataType.is_json_safe
      (BqNonArrayDataType.Struct
        [BqStructField.mk (some "a") (BqDataType.NonArray BqNonArrayDataType.Bool),
         BqStructField.mk (some "a") (BqDataType.NonArray BqNonArrayDataType.Bool)])
      = true
    ∧ specStructJsonSafe
        [BqStructField.mk (some "a") (BqDataType.NonArray BqNonArrayDataType.Bool),
         BqStructField.mk (some "a") (BqDataType.NonArray BqNonArrayDataType.Bool)]
      = false := by
  constructor
  · rfl
  · decide

/-- C2 (counterexample): the Redshift `write_local_data_helper` takes
`dest_args` in `Unverified` state, yet no verification of `dest_args`
precedes the first I/O event of its success path (the upload of the CSV
streams to temporary `s3://` storage); so it is not the case that every
argument set of every helper is verified before any I/O begins. -/
theorem redshift_dest_args_unverified_before_io :
    redshiftWriteLocalDataArgSets.contains ArgSet.dest = true
    ∧ verifiedBeforeAnyIo redshiftWriteLocalDataTrace ArgSet.dest = false := by
  decide

/-- C2 (amended): both argument sets of the PostgreSQL `count_helper` are
verified before any I/O, and the Redshift `write_local_data_helper` verifies
`shared_args` before any I/O, but passes `dest_args` to `write_remote_data`
still unverified, after the staging uploads. -/
theorem helpers_verify_before_io_amended :
    countHelperArgSets.all (verifiedBeforeAnyIo countHelperTrace) = true
    ∧ verifiedBeforeAnyIo redshiftWriteLocalDataTrace ArgSet.shared = true
    ∧ verifiedBeforeAnyIo redshiftWriteLocalDataTrace ArgSet.dest = false := by
  decide

/-- C3: round-tripping `Other(n)` through the origin backend (modelled from
the spec) preserves it, while round-tripping it through BigQuery — a
different backend, which maps `Other(_)` to `STRING` — coerces it to `Text`,
in either usage context. -/
theorem other_round_trip (n : String) :
    (OriginNativeType.for_other n).to_data_type = DataType.Other n
    ∧ ∀ u : Usage,
        (BqDataType.for_data_type (DataType.Other n) u).bind
            BqDataType.to_data_type
          = Except.ok DataType.Text := by
  refine ⟨rfl, ?_⟩
  intro u
  cases u <;> rfl

/-- C4: every BigQuery type produced by `BqDataType::for_data_type` in
`FinalTable` usage erases to a syntax tree with no `ARRAY` directly nested
inside another `ARRAY` (indeed every `BqDataType` does, since the type
separates `Array` from `NonArray` and so cannot express `ARRAY<ARRAY<_>>`),
and a nested portable `Array(Array(t))` is emitted as an array of a
single-anonymous-field struct wrapping the inner array. -/
theorem bq_final_table_no_nested_arrays (p t : DataType) (bq : BqDataType)
    (u : BqNonArrayDataType)
    (_hp : BqDataType.for_data_type p Usage.FinalTable = Except.ok bq)
    (ht : BqNonArrayDataType.for_data_type t Usage.FinalTable = Except.ok u) :
    bq.toRaw.noArrayInArray = true
    ∧ BqDataType.for_data_type (DataType.Array (DataType.Array t))
          Usage.FinalTable
        = Except.ok (BqDataType.Array (BqNonArrayDataType.Struct
            [BqStructField.mk none (BqDataType.Array u)])) := by
  refine ⟨bqDataType_toRaw_noArrayInArray bq, ?_⟩
  simp [BqDataType.for_data_type, BqNonArrayDataType.for_data_type, ht]

/-- C4 witness: instantiated at `p = Bool`, `t = Int32`. -/
theorem bq_final_table_no_nested_arrays_witness :
    BqDataType.for_data_type DataType.Bool Usage.FinalTable
        = Except.ok (BqDataType.NonArray BqNonArrayDataType.Bool)
    ∧ BqNonArrayDataType.for_data_type DataType.Int32 Usage.FinalTable
        = Except.ok BqNonArrayDataType.Int64
    ∧ ((BqDataType.NonArray BqNonArrayDataType.Bool).toRaw.noArrayInArray = true
       ∧ BqDataType.for_data_type
             (DataType.Array (DataType.Array DataType.Int32)) Usage.FinalTable
           = Except.ok (BqDataType.Array (BqNonArrayDataType.Struct
               [BqStructField.mk none
                 (BqDataType.Array BqNonArrayDataType.Int64)]))) :=
  ⟨rfl, rfl, bq_final_table_no_nested_arrays DataType.Bool DataType.Int32 _ _ rfl rfl⟩

/-- C5: on the safely round-trippable subset of portable types, mapping to a
BigQuery type in `FinalTable` usage and back to portable is the identity. -/
theorem bq_final_table_round_trip (p : DataType)
    (h : safelyRoundTrippable p = true) :
    ∃ bq, BqDataType.for_data_type p Usage.FinalTable = Except.ok bq
      ∧ bq.to_data_type = Except.ok p := by
  cases p with
  | Array elem =>
    cases elem with
    | Array e2 => simp [safelyRoundTrippable, scalarRoundTrippable] at h
    | Bool => exact ⟨_, rfl, rfl⟩
    | Date => exact ⟨_, rfl, rfl⟩
    | Decimal => exact ⟨_, rfl, rfl⟩
    | Float32 => simp [safelyRoundTrippable, scalarRoundTrippable] at h
    | Float64 => exact ⟨_, rfl, rfl⟩
    | GeoJson srid =>
      have hs : srid = Srid.wgs84 := by
        simpa [safelyRoundTrippable, scalarRoundTrippable] using h
      subst hs
      exact ⟨_, rfl, rfl⟩
    | Int16 => simp [safelyRoundTrippable, scalarRoundTrippable] at h
    | Int32 => simp [safelyRoundTrippable, scalarRoundTrippable] at h
    | Int64 => exact ⟨_, rfl, rfl⟩
    | Json => simp [safelyRoundTrippable, scalarRoundTrippable] at h
    | Other nm => simp [safelyRoundTrippable, scalarRoundTrippable] at h
    | Text => exact ⟨_, rfl, rfl⟩
    | TimestampWithoutTimeZone => exact ⟨_, rfl, rfl⟩
    | TimestampWithTimeZone => exact ⟨_, rfl, rfl⟩
    | Uuid => simp [safelyRoundTrippable, scalarRoundTrippable] at h
  | Bool => exact ⟨_, rfl, rfl⟩
  | Date => exact ⟨_, rfl, rfl⟩
  | Decimal => exact ⟨_, rfl, rfl⟩
  | Float32 => simp [safelyRoundTrippable, scalarRoundTrippable] at h
  | Float64 => exact ⟨_, rfl, rfl⟩
  | GeoJson srid =>
    have hs : srid = Srid.wgs84 := by
      simpa [safelyRoundTrippable, scalarRoundTrippable] using h
    subst hs
    exact ⟨_, rfl, rfl⟩
  | Int16 => simp [safelyRoundTrippable, scalarRoundTrippable] at h
  | Int32 => simp [safelyRoundTrippable, scalarRoundTrippable] at h
  | Int64 => exact ⟨_, rfl, rfl⟩
  | Json => simp [safelyRoundTrippable, scalarRoundTrippable] at h
  | Other nm => simp [safelyRoundTrippable, scalarRoundTrippable] at h
  | Text => exact ⟨_, rfl, rfl⟩
  | TimestampWithoutTimeZone => exact ⟨_, rfl, rfl⟩
  | TimestampWithTimeZone => exact ⟨_, rfl, rfl⟩
  | Uuid => simp [safelyRoundTrippable, scalarRoundTrippable] at h

/-- C5 witness: instantiated at `p = Array(Int64)`. -/
theorem bq_final_table_round_trip_witness :
    safelyRoundTrippable (DataType.Array DataType.Int64) = true
    ∧ ∃ bq, BqDataType.for_data_type (DataType.Array DataType.Int64)
          Usage.FinalTable = Except.ok bq
        ∧ bq.to_data_type = Except.ok (DataType.Array DataType.Int64) :=
  ⟨rfl, bq_final_table_round_trip (DataType.Array DataType.Int64) rfl⟩

/-- C6: the portable input `Array(Array(Array(Int32)))` maps, in `FinalTable`
usage, to a BigQuery type printed exactly
`ARRAY<STRUCT<ARRAY<STRUCT<ARRAY<INT64>>>>>`, and in `CsvLoad` usage to one
printed exactly `STRING`. -/
theorem nested_arrays_printed_forms :
    (BqDataType.for_data_type
        (DataType.Array (DataType.Array (DataType.Array DataType.Int32)))
        Usage.FinalTable).map BqDataType.toSqlString
      = Except.ok "ARRAY<STRUCT<ARRAY<STRUCT<ARRAY<INT64>>>>>"
    ∧ (BqDataType.for_data_type
        (DataType.Array (DataType.Array (DataType.Array DataType.Int32)))
        Usage.CsvLoad).map BqDataType.toSqlString
      = Except.ok "STRING" := by
  constructor
  · rfl
  · rfl

/-- C7: a top-level portable `Array(t)` maps, in `CsvLoad` usage, to the
non-array BigQuery type `String` — printed `STRING` — whatever `t` is. -/
theorem top_level_array_csv_load_is_string (t : DataType) :
    BqDataType.for_data_type (DataType.Array t) Usage.CsvLoad
      = Except.ok (BqDataType.NonArray BqNonArrayDataType.String)
    ∧ (BqDataType.NonArray BqNonArrayDataType.String).toSqlString = "STRING" :=
  ⟨rfl, rfl⟩

/-- C8: converting the BigQuery type `ARRAY<STRUCT<...>>` back to portable
yields exactly `Json`, whatever the struct's fields are. -/
theorem array_of_struct_collapses_to_json (fields : List BqStructField) :
    (BqDataType.Array (BqNonArrayDataType.Struct fields)).to_data_type
      = Except.ok DataType.Json :=
  rfl

/-- C9: `BqNonArrayDataType::to_data_type` fails exactly on `Bytes` and
`Time`; every other constructor (for `Struct`, every field list) converts to
a portable type. -/
theorem to_data_type_errors_iff_bytes_or_time (t : BqNonArrayDataType) :
    (∃ e, t.to_data_type = Except.error e)
      ↔ (t = BqNonArrayDataType.Bytes ∨ t = BqNonArrayDataType.Time) := by
  cases t <;> simp [BqNonArrayDataType.to_data_type]

/-- C10: the tail of `count_helper` returns `Ok(n)` exactly when the count
query produced a single row holding the non-negative count `n`; zero rows,
several rows, or a negative count produce an error. -/
theorem count_helper_result_ok_iff (rows : List Int) (n : Nat) :
    count_helper_result rows = Except.ok n ↔ rows = [(n : Int)] := by
  cases rows with
  | nil => simp [count_helper_result]
  | cons c rest =>
    cases rest with
    | nil =>
      simp only [count_helper_result, List.length_cons, List.length_nil]
      by_cases hc : c < 0
      · simp only [if_neg (by omega : ¬(0 + 1 ≠ 1)), if_pos hc]
        constructor
        · intro h
          exact absurd h (by simp)
        · intro h
          have : c = (n : Int) := by simpa using h
          omega
      · simp only [if_neg (by omega : ¬(0 + 1 ≠ 1)), if_neg hc]
        constructor
        · intro h
          have hn : c.toNat = n := by simpa using h
          have : c = (n : Int) := by omega
          simp [this]
        · intro h
          have : c = (n : Int) := by simpa using h
          subst this
          simp
    | cons d rest2 =>
      simp [count_helper_result]

end DbCrossbar
